import Mathlib

/-!
Shallow embedding of `src/time_sync.py` (biometric-attendance-sync-tool).

The script is a single-threaded polling loop.  External effects are made
explicit:

* the PickleDB status file becomes an association list `Store` with
  `storeGet` / `storeSet` mirroring `status.get` / `status.set`;
* the ZK device SDK is an oracle: each probe / clock read / clock write is
  given its outcome as data (`Bool` for a connect that succeeds or raises,
  `Except Unit (Option Int)` for a time read that may raise or return a
  falsy value);
* notification attempts (`send_google_chat_message` call sites) are recorded
  in an output list `notifs`;
* device I/O operations performed are recorded in an output list `ops`
  (`DevOp`), so that frame claims ("never writes a device clock") are about
  the recorded trace;
* Python `return None` fall-through is modelled by `Option Bool` results,
  with `pyTruthy` giving the truthiness a caller's `if` sees.

Times are integers (seconds); `time_diff = abs((system_time -
device_time).total_seconds())` becomes `|systemTime - deviceTime|` on `Int`.
-/

/-- A configured device: one entry of `config.devices`. -/
structure Device where
  device_id : String
  ip : String
deriving DecidableEq, Repr

/-- The PickleDB status store: a flat key-value mapping. -/
abbrev Store := List (String × String)

/-- `status.get(key)` — `none` when the key is absent. -/
def storeGet : Store → String → Option String
  | [], _ => none
  | p :: rest, k => if p.1 == k then some p.2 else storeGet rest k

/-- `status.set(key, value)` — overwrite in place, append when absent. -/
def storeSet : Store → String → String → Store
  | [], k, v => [(k, v)]
  | p :: rest, k, v => if p.1 == k then (k, v) :: rest else p :: storeSet rest k v

/-- A notification attempt (a call of `send_google_chat_message`). -/
inductive Notif where
  | backOnline (device_id ip : String)
  | offline (device_id ip : String)
  | timeSynced (diff : Int) (device_id ip : String)
deriving DecidableEq, Repr

/-- A device I/O operation performed through the ZK SDK. -/
inductive DevOp where
  | probe (ip : String)
  | readTime (ip : String)
  | disable (ip : String)
  | setTime (ip : String) (t : Int)
  | enable (ip : String)
deriving DecidableEq, Repr

/-- Operations that write to the device (the disable/set-time/enable
sequence of `set_device_time`); probes and clock reads are not writes. -/
def isClockWrite : DevOp → Bool
  | .disable _ => true
  | .setTime _ _ => true
  | .enable _ => true
  | _ => false

/-- Outcome of an HTTP POST to the webhook: a response with a status code,
or a transport exception. -/
inductive HttpResult where
  | response (statusCode : Nat)
  | exception
deriving DecidableEq, Repr

/-- Python truthiness of `GOOGLE_CHAT_WEBHOOK` (`not GOOGLE_CHAT_WEBHOOK`):
falsy when unset (`None`) or the empty string. -/
def webhookFalsy : Option String → Bool
  | none => true
  | some s => s.isEmpty

/-- `send_google_chat_message` (src/time_sync.py:38-80): returns `False`
when notifications are disabled or the webhook is falsy; otherwise performs
the POST and returns `True` exactly on status 200, `False` on any other
status or on a transport exception. -/
def send_google_chat_message (enableChat : Bool) (webhook : Option String)
    (http : HttpResult) : Bool :=
  if !enableChat || webhookFalsy webhook then false
  else if webhookFalsy webhook then false
  else
    match http with
    | .response code => code == 200
    | .exception => false

/-- The per-device status key `f'{device_id}_online_status'`. -/
def statusKey (d : Device) : String := d.device_id ++ "_online_status"

/-- The per-device sync-timestamp key `f'{device_id}_last_time_sync'`. -/
def syncKey (d : Device) : String := d.device_id ++ "_last_time_sync"

/-- Result of `check_device_online_status`: the returned boolean, the
status store after the call, the notification attempts, the device ops. -/
structure CheckOut where
  online : Bool
  store : Store
  notifs : List Notif
  ops : List DevOp
deriving Repr

/-- `check_device_online_status` (src/time_sync.py:83-129).  `reachable`
is the outcome of the short-timeout `zk.connect()` probe (`true` = no
exception). -/
def check_device_online_status (d : Device) (reachable : Bool) (st : Store) :
    CheckOut :=
  if reachable then
    let previous_status := storeGet st (statusKey d)
    if previous_status = some "offline" ∨ previous_status = none then
      { online := true
        store := storeSet st (statusKey d) "online"
        notifs := if previous_status = some "offline"
                  then [Notif.backOnline d.device_id d.ip] else []
        ops := [DevOp.probe d.ip] }
    else
      { online := true, store := st, notifs := [], ops := [DevOp.probe d.ip] }
  else
    let previous_status := storeGet st (statusKey d)
    if previous_status ≠ some "offline" then
      { online := false
        store := storeSet st (statusKey d) "offline"
        notifs := [Notif.offline d.device_id d.ip]
        ops := [DevOp.probe d.ip] }
    else
      { online := false, store := st, notifs := [], ops := [DevOp.probe d.ip] }

/-- Outcomes of the four SDK calls inside `set_device_time`
(src/time_sync.py:152-182): `true` = the call does not raise. -/
structure SetTimeEnv where
  connectOk : Bool
  disableOk : Bool
  setOk : Bool
  enableOk : Bool
deriving DecidableEq, Repr

/-- `set_device_time` (src/time_sync.py:152-182): connect, disable, set
time, enable in order; the first raising call aborts (the exception is
re-raised); on full success the function returns `True`.  The second
component records which device operations were invoked. -/
def set_device_time (ip : String) (new_time : Int) (e : SetTimeEnv) :
    Except Unit Bool × List DevOp :=
  if !e.connectOk then (.error (), [])
  else if !e.disableOk then (.error (), [DevOp.disable ip])
  else if !e.setOk then (.error (), [DevOp.disable ip, DevOp.setTime ip new_time])
  else if !e.enableOk then
    (.error (), [DevOp.disable ip, DevOp.setTime ip new_time, DevOp.enable ip])
  else (.ok true, [DevOp.disable ip, DevOp.setTime ip new_time, DevOp.enable ip])

/-- The whole disable/set/enable sequence of `set_device_time` succeeds. -/
def setSeqOk (e : SetTimeEnv) : Bool :=
  e.connectOk && e.disableOk && e.setOk && e.enableOk

/-- External-world outcomes for one `sync_device_time` call. `getTime1` /
`getTime2` are the two `get_device_time` calls: `.error` = the call raises,
`.ok none` = it returns a falsy value, `.ok (some t)` = device clock `t`. -/
structure SyncEnv where
  reachable : Bool
  getTime1 : Except Unit (Option Int)
  setEnv : SetTimeEnv
  getTime2 : Except Unit (Option Int)
  systemTime : Int
deriving Repr

/-- Python truthiness of an `Option Bool` return value (`None` is falsy). -/
def pyTruthy : Option Bool → Bool
  | some b => b
  | none => false

/-- Result of `sync_device_time`: the Python return value (`none` models
the fall-through `return None`), the store, notifications, device ops. -/
structure SyncOut where
  result : Option Bool
  store : Store
  notifs : List Notif
  ops : List DevOp
deriving Repr

/-- `sync_device_time` (src/time_sync.py:185-245). -/
def sync_device_time (tol : Int) (d : Device) (e : SyncEnv) (st : Store) :
    SyncOut :=
  let c := check_device_online_status d e.reachable st
  if !c.online then
    { result := some false, store := c.store, notifs := c.notifs, ops := c.ops }
  else
    match e.getTime1 with
    | .error _ =>
        { result := some false, store := c.store, notifs := c.notifs
          ops := c.ops ++ [DevOp.readTime d.ip] }
    | .ok none =>
        { result := some false, store := c.store, notifs := c.notifs
          ops := c.ops ++ [DevOp.readTime d.ip] }
    | .ok (some device_time) =>
        let time_diff : Int := |e.systemTime - device_time|
        if time_diff > tol then
          match set_device_time d.ip e.systemTime e.setEnv with
          | (.error _, sOps) =>
              { result := some false, store := c.store, notifs := c.notifs
                ops := c.ops ++ [DevOp.readTime d.ip] ++ sOps }
          | (.ok _, sOps) =>
              let n1 := if time_diff > 300
                        then [Notif.timeSynced time_diff d.device_id d.ip] else []
              match e.getTime2 with
              | .error _ =>
                  { result := some false, store := c.store, notifs := c.notifs ++ n1
                    ops := c.ops ++ [DevOp.readTime d.ip] ++ sOps ++ [DevOp.readTime d.ip] }
              | .ok none =>
                  { result := none, store := c.store, notifs := c.notifs ++ n1
                    ops := c.ops ++ [DevOp.readTime d.ip] ++ sOps ++ [DevOp.readTime d.ip] }
              | .ok (some updated_device_time) =>
                  let verification_diff : Int := |e.systemTime - updated_device_time|
                  if verification_diff ≤ tol then
                    { result := some true, store := c.store, notifs := c.notifs ++ n1
                      ops := c.ops ++ [DevOp.readTime d.ip] ++ sOps ++ [DevOp.readTime d.ip] }
                  else
                    { result := some false, store := c.store, notifs := c.notifs ++ n1
                      ops := c.ops ++ [DevOp.readTime d.ip] ++ sOps ++ [DevOp.readTime d.ip] }
        else
          { result := some true, store := c.store, notifs := c.notifs
            ops := c.ops ++ [DevOp.readTime d.ip] }

/-- External-world outcomes for one device in one `sync_all_devices` cycle:
`reachable1` is the probe in the loop body (line 263); the probe inside
`sync_device_time` (line 191) is `syncEnv.reachable`. -/
structure CycleEnv where
  reachable1 : Bool
  syncEnv : SyncEnv
deriving Repr

/-- The body of the `for device in config.devices` loop of
`sync_all_devices` (src/time_sync.py:260-269): probe, then sync, then on a
truthy sync result write `<device_id>_last_time_sync = now`. -/
def sync_one_device (tol : Int) (d : Device) (env : CycleEnv) (now : String)
    (st : Store) : Store × List Notif × List DevOp :=
  let c := check_device_online_status d env.reachable1 st
  if c.online then
    let r := sync_device_time tol d env.syncEnv c.store
    if pyTruthy r.result then
      (storeSet r.store (syncKey d) now, c.notifs ++ r.notifs, c.ops ++ r.ops)
    else
      (r.store, c.notifs ++ r.notifs, c.ops ++ r.ops)
  else
    (c.store, c.notifs, c.ops)

/-- The `for device in config.devices` loop of `sync_all_devices`
(src/time_sync.py:260-271), threading the status store through the
devices in order and collecting notifications and device operations. -/
def sync_loop (tol : Int) (now : String) :
    List (Device × CycleEnv) → Store → Store × List Notif × List DevOp
  | [], st => (st, [], [])
  | p :: rest, st =>
      let r := sync_one_device tol p.1 p.2 now st
      let restOut := sync_loop tol now rest r.1
      (restOut.1, r.2.1 ++ restOut.2.1, r.2.2 ++ restOut.2.2)

/-- `sync_all_devices` (src/time_sync.py:248-278): an early return when
`ENABLE_TIME_SYNC` is false, otherwise the per-device loop followed by the
unconditional `last_time_sync_run` write. -/
def sync_all_devices (enableTimeSync : Bool) (tol : Int)
    (devices : List (Device × CycleEnv)) (now : String) (st : Store) :
    Store × List Notif × List DevOp :=
  if !enableTimeSync then (st, [], [])
  else
    let l := sync_loop tol now devices st
    (storeSet l.1 "last_time_sync_run" now, l.2.1, l.2.2)

/-- The body of the `check` mode loop (src/time_sync.py:352-371): probe via
`check_device_online_status`; when online, read the device time (read-only)
and print; exceptions are printed.  `getTime` is that read's outcome. -/
def check_mode_device (d : Device) (reachable : Bool)
    (_getTime : Except Unit (Option Int)) (st : Store) :
    Store × List Notif × List DevOp :=
  let c := check_device_online_status d reachable st
  if c.online then
    (c.store, c.notifs, c.ops ++ [DevOp.readTime d.ip])
  else
    (c.store, c.notifs, c.ops)

/-- The `check` mode of `__main__` (src/time_sync.py:349-371): the
per-device loop over `config.devices`, threading the status store. -/
def check_mode :
    List (Device × Bool × Except Unit (Option Int)) → Store →
      Store × List Notif × List DevOp
  | [], st => (st, [], [])
  | p :: rest, st =>
      let r := check_mode_device p.1 p.2.1 p.2.2 st
      let restOut := check_mode rest r.1
      (restOut.1, r.2.1 ++ restOut.2.1, r.2.2 ++ restOut.2.2)

/-- The conditions under which `sync_device_time` returns `True`, read off
the source: device reachable, first clock read succeeds and is truthy, and
either the difference is within tolerance, or the disable/set/enable
sequence succeeds and the verification re-read is within tolerance. -/
def sync_success (tol : Int) (e : SyncEnv) : Bool :=
  e.reachable &&
    (match e.getTime1 with
     | .ok (some t) =>
         if |e.systemTime - t| ≤ tol then true
         else
           setSeqOk e.setEnv &&
             (match e.getTime2 with
              | .ok (some u) => |e.systemTime - u| ≤ tol
              | _ => false)
     | _ => false)

/-! ## Basic lemmas about the store and the reachability check -/

theorem storeGet_storeSet_self (st : Store) (k v : String) :
    storeGet (storeSet st k v) k = some v := by
  induction st with
  | nil => simp [storeSet, storeGet]
  | cons p rest ih =>
      by_cases hp : p.1 = k
      · simp [storeSet, storeGet, hp]
      · simp [storeSet, storeGet, hp, ih]

theorem storeGet_storeSet_ne {k' k : String} (h : k' ≠ k) (st : Store)
    (v : String) :
    storeGet (storeSet st k v) k' = storeGet st k' := by
  induction st with
  | nil => simp [storeSet, storeGet, Ne.symm h]
  | cons p rest ih =>
      by_cases hp : p.1 = k
      · simp [storeSet, storeGet, hp, Ne.symm h]
      · simp [storeSet, storeGet, hp, ih]

theorem String.append_right_ne (s : String) {a b : String} (h : a ≠ b) :
    s ++ a ≠ s ++ b := by
  intro he
  apply h
  have hd : s.data ++ a.data = s.data ++ b.data := by
    simpa [String.data_append] using congrArg String.data he
  have hab : a.data = b.data := List.append_cancel_left hd
  exact String.ext hab

theorem statusKey_ne_syncKey (d : Device) : statusKey d ≠ syncKey d := by
  exact String.append_right_ne d.device_id (by decide)

theorem syncKey_ne_statusKey (d : Device) : syncKey d ≠ statusKey d :=
  (statusKey_ne_syncKey d).symm

theorem check_online (d : Device) (r : Bool) (st : Store) :
    (check_device_online_status d r st).online = r := by
  cases r <;> simp only [check_device_online_status] <;>
    split <;> (try split) <;> simp_all

theorem check_ops (d : Device) (r : Bool) (st : Store) :
    (check_device_online_status d r st).ops = [DevOp.probe d.ip] := by
  cases r <;> simp only [check_device_online_status] <;>
    split <;> (try split) <;> simp_all

theorem check_store_frame (d : Device) (r : Bool) (st : Store) (k : String)
    (hk : k ≠ statusKey d) :
    storeGet (check_device_online_status d r st).store k = storeGet st k := by
  cases r <;> simp only [check_device_online_status] <;>
    split <;> (try split) <;> simp_all [storeGet_storeSet_ne hk]

/-! ## Characterization of `sync_device_time` -/

theorem sync_store (tol : Int) (d : Device) (e : SyncEnv) (st : Store) :
    (sync_device_time tol d e st).store =
      (check_device_online_status d e.reachable st).store := by
  unfold sync_device_time
  repeat' split
  all_goals simp [apply_ite SyncOut.store]

theorem sync_truthy (tol : Int) (d : Device) (e : SyncEnv) (st : Store) :
    pyTruthy (sync_device_time tol d e st).result = sync_success tol e := by
  obtain ⟨r, g1, ⟨c1, c2, c3, c4⟩, g2, sysT⟩ := e
  cases r with
  | false => simp [sync_device_time, sync_success, check_online, pyTruthy]
  | true =>
    rcases g1 with u | (_ | t)
    · simp [sync_device_time, sync_success, check_online, pyTruthy]
    · simp [sync_device_time, sync_success, check_online, pyTruthy]
    · rcases le_or_lt |sysT - t| tol with hd | hd
      · simp [sync_device_time, sync_success, check_online, pyTruthy, hd,
          not_lt.mpr hd]
      · cases c1 <;> cases c2 <;> cases c3 <;> cases c4 <;>
          simp [sync_device_time, sync_success, check_online, pyTruthy,
            set_device_time, setSeqOk, hd, not_le.mpr hd] <;>
          rcases g2 with u2 | (_ | t2) <;>
          simp [pyTruthy] <;>
          rcases le_or_lt |sysT - t2| tol with hv | hv <;>
          first
          | simp [hv, not_lt.mpr hv]
          | simp [hv, not_le.mpr hv]

/-! ## Characterization of the loop body and the check mode body -/

theorem check_mode_device_store (d : Device) (r : Bool)
    (g : Except Unit (Option Int)) (st : Store) :
    (check_mode_device d r g st).1 = (check_device_online_status d r st).store := by
  cases r <;> simp [check_mode_device, check_online]

theorem check_mode_device_ops_no_write (d : Device) (r : Bool)
    (g : Except Unit (Option Int)) (st : Store) :
    ((check_mode_device d r g st).2.2.all fun op => !isClockWrite op) = true := by
  cases r <;> simp [check_mode_device, check_online, check_ops, isClockWrite]

theorem sync_one_syncKey (tol : Int) (d : Device) (env : CycleEnv)
    (now : String) (st : Store) :
    storeGet (sync_one_device tol d env now st).1 (syncKey d) =
      if env.reachable1 && sync_success tol env.syncEnv then some now
      else storeGet st (syncKey d) := by
  obtain ⟨r1, se⟩ := env
  simp only [sync_one_device, sync_store, sync_truthy, check_online]
  cases r1 with
  | false =>
      simp [check_store_frame d false st (syncKey d) (syncKey_ne_statusKey d)]
  | true =>
      cases hs : sync_success tol se with
      | false =>
          simp [hs,
            check_store_frame d se.reachable
              ((check_device_online_status d true st).store) (syncKey d)
              (syncKey_ne_statusKey d),
            check_store_frame d true st (syncKey d) (syncKey_ne_statusKey d)]
      | true =>
          simp [hs, storeGet_storeSet_self]

/-! ## Claim theorems -/

/-- C1: a reachability status transition (online→offline or
offline→online) observed by `check_device_online_status` triggers exactly
one notification attempt; a repeated check observing the same state as the
persisted status triggers none; in particular a second consecutive
unreachable check after the status has been persisted as offline sends
zero additional notifications. -/
theorem C1_transition_notifications (d : Device) (st : Store) :
    (storeGet st (statusKey d) = some "online" →
      (check_device_online_status d false st).notifs.length = 1) ∧
    (storeGet st (statusKey d) = some "offline" →
      (check_device_online_status d true st).notifs.length = 1) ∧
    (storeGet st (statusKey d) = some "online" →
      (check_device_online_status d true st).notifs = []) ∧
    (storeGet st (statusKey d) = some "offline" →
      (check_device_online_status d false st).notifs = []) ∧
    (check_device_online_status d false
        ((check_device_online_status d false st).store)).notifs = [] := by
  refine ⟨?_, ?_, ?_, ?_, ?_⟩
  · intro h; simp [check_device_online_status, h]
  · intro h; simp [check_device_online_status, h]
  · intro h; simp [check_device_online_status, h]
  · intro h; simp [check_device_online_status, h]
  · by_cases hp : storeGet st (statusKey d) = some "offline"
    · simp [check_device_online_status, hp]
    · simp [check_device_online_status, hp, storeGet_storeSet_self]

theorem C1_transition_notifications_witness :
    (check_device_online_status ⟨"d1", "ip1"⟩ false
        [("d1_online_status", "online")]).notifs.length = 1 ∧
    (check_device_online_status ⟨"d1", "ip1"⟩ true
        [("d1_online_status", "offline")]).notifs.length = 1 :=
  ⟨(C1_transition_notifications ⟨"d1", "ip1"⟩
      [("d1_online_status", "online")]).1 (by decide),
   (C1_transition_notifications ⟨"d1", "ip1"⟩
      [("d1_online_status", "offline")]).2.1 (by decide)⟩

/-- C3: a device found unreachable whose persisted status is not
"offline" (including the no-record case) has its status persisted as
"offline" and an "OFFLINE" notification attempted. -/
theorem C3_offline_transition (d : Device) (st : Store)
    (h : storeGet st (statusKey d) ≠ some "offline") :
    storeGet (check_device_online_status d false st).store (statusKey d) =
      some "offline" ∧
    (check_device_online_status d false st).notifs =
      [Notif.offline d.device_id d.ip] := by
  simp [check_device_online_status, h, storeGet_storeSet_self]

theorem C3_offline_transition_witness :
    storeGet (check_device_online_status ⟨"d1", "ip1"⟩ false []).store
        (statusKey ⟨"d1", "ip1"⟩) = some "offline" ∧
    (check_device_online_status ⟨"d1", "ip1"⟩ false []).notifs =
      [Notif.offline "d1" "ip1"] :=
  C3_offline_transition ⟨"d1", "ip1"⟩ [] (by decide)

/-- C9: a device first observed reachable with no prior status record
sends no "back ONLINE" notification, but the status "online" is
persisted. -/
theorem C9_first_online_silent (d : Device) (st : Store)
    (h : storeGet st (statusKey d) = none) :
    (check_device_online_status d true st).notifs = [] ∧
    storeGet (check_device_online_status d true st).store (statusKey d) =
      some "online" := by
  simp [check_device_online_status, h, storeGet_storeSet_self]

theorem C9_first_online_silent_witness :
    (check_device_online_status ⟨"d1", "ip1"⟩ true []).notifs = [] ∧
    storeGet (check_device_online_status ⟨"d1", "ip1"⟩ true []).store
        (statusKey ⟨"d1", "ip1"⟩) = some "online" :=
  C9_first_online_silent ⟨"d1", "ip1"⟩ [] (by decide)

/-- C8: `send_google_chat_message` returns `true` exactly when
notifications are enabled, the webhook endpoint is set (truthy), and the
HTTP POST receives status 200; in every other case — disabled, endpoint
unset, non-200 status, transport exception — it returns `false` (the
model is a total function: it never raises). -/
theorem C8_notification_result (enableChat : Bool) (webhook : Option String)
    (http : HttpResult) :
    send_google_chat_message enableChat webhook http = true ↔
      (enableChat = true ∧ webhookFalsy webhook = false ∧
        http = HttpResult.response 200) := by
  cases enableChat with
  | false => simp [send_google_chat_message]
  | true =>
      rcases webhook with _ | w
      · simp [send_google_chat_message, webhookFalsy]
      · by_cases hw : w.isEmpty = true
        · simp [send_google_chat_message, webhookFalsy, hw]
        · cases http <;> simp [send_google_chat_message, webhookFalsy, hw]

/-- C2 counterexample: a device unreachable for the first time ever (no
prior status key) does NOT produce zero notifications — the loop body
attempts one "OFFLINE" notification (`previous_status != 'offline'` holds
when the previous status is `None`). -/
theorem C2_first_unreachable_counterexample :
    (sync_one_device 60 ⟨"d1", "ip1"⟩
        ⟨false, ⟨false, Except.ok none, ⟨true, true, true, true⟩,
          Except.ok none, 0⟩⟩ "T" []).2.1 ≠ [] := by
  decide

/-- C2 amended: a device probed while unreachable with no prior status key
gets status "offline" persisted, exactly one "OFFLINE" notification
attempt (not zero), and time sync is skipped for that device this cycle
(only the probe happens; the sync-timestamp key is untouched). -/
theorem C2_first_unreachable_amended (tol : Int) (d : Device)
    (env : CycleEnv) (now : String) (st : Store)
    (h1 : env.reachable1 = false)
    (h2 : storeGet st (statusKey d) = none) :
    storeGet (sync_one_device tol d env now st).1 (statusKey d) =
      some "offline" ∧
    (sync_one_device tol d env now st).2.1 =
      [Notif.offline d.device_id d.ip] ∧
    (sync_one_device tol d env now st).2.2 = [DevOp.probe d.ip] ∧
    storeGet (sync_one_device tol d env now st).1 (syncKey d) =
      storeGet st (syncKey d) := by
  simp [sync_one_device, h1, check_online, check_device_online_status, h2,
    storeGet_storeSet_self, storeGet_storeSet_ne (syncKey_ne_statusKey d)]

theorem C2_first_unreachable_amended_witness :
    storeGet (sync_one_device 60 ⟨"d1", "ip1"⟩
        ⟨false, ⟨false, Except.ok none, ⟨true, true, true, true⟩,
          Except.ok none, 0⟩⟩ "T" []).1 (statusKey ⟨"d1", "ip1"⟩) =
      some "offline" ∧
    (sync_one_device 60 ⟨"d1", "ip1"⟩
        ⟨false, ⟨false, Except.ok none, ⟨true, true, true, true⟩,
          Except.ok none, 0⟩⟩ "T" []).2.1 = [Notif.offline "d1" "ip1"] ∧
    (sync_one_device 60 ⟨"d1", "ip1"⟩
        ⟨false, ⟨false, Except.ok none, ⟨true, true, true, true⟩,
          Except.ok none, 0⟩⟩ "T" []).2.2 = [DevOp.probe "ip1"] ∧
    storeGet (sync_one_device 60 ⟨"d1", "ip1"⟩
        ⟨false, ⟨false, Except.ok none, ⟨true, true, true, true⟩,
          Except.ok none, 0⟩⟩ "T" []).1 (syncKey ⟨"d1", "ip1"⟩) =
      storeGet [] (syncKey ⟨"d1", "ip1"⟩) :=
  C2_first_unreachable_amended 60 ⟨"d1", "ip1"⟩
    ⟨false, ⟨false, Except.ok none, ⟨true, true, true, true⟩,
      Except.ok none, 0⟩⟩ "T" [] rfl (by decide)

/-- C5: in one cycle the key `<device_id>_last_time_sync` holds `now`
exactly when the device was reachable and the sync succeeded (difference
within tolerance, or correction applied and the verification re-read
within tolerance); in every other outcome (unreachable, failed read,
correction failure, verification failure, fall-through) it is unchanged. -/
theorem C5_last_time_sync_key (tol : Int) (d : Device) (env : CycleEnv)
    (now : String) (st : Store) :
    storeGet (sync_one_device tol d env now st).1 (syncKey d) =
      if env.reachable1 && sync_success tol env.syncEnv then some now
      else storeGet st (syncKey d) :=
  sync_one_syncKey tol d env now st

/-- C6: a reachable device whose clock difference is within tolerance gets
no disable/set-time/enable operation, its cycle reports success
(`sync_device_time` returns `True`), and `<device_id>_last_time_sync` is
still updated. -/
theorem C6_within_tolerance (tol : Int) (d : Device) (env : CycleEnv)
    (now : String) (st : Store) (dt : Int)
    (h1 : env.reachable1 = true)
    (h2 : env.syncEnv.reachable = true)
    (h3 : env.syncEnv.getTime1 = Except.ok (some dt))
    (h4 : |env.syncEnv.systemTime - dt| ≤ tol) :
    (sync_device_time tol d env.syncEnv
        (check_device_online_status d true st).store).result = some true ∧
    ((sync_one_device tol d env now st).2.2.all fun op => !isClockWrite op)
      = true ∧
    storeGet (sync_one_device tol d env now st).1 (syncKey d) = some now := by
  have hsucc : sync_success tol env.syncEnv = true := by
    simp [sync_success, h2, h3, h4]
  refine ⟨?_, ?_, ?_⟩
  · simp [sync_device_time, check_online, h2, h3, not_lt.mpr h4]
  · simp [sync_one_device, h1, check_online, check_ops, sync_device_time,
      h2, h3, not_lt.mpr h4, isClockWrite, pyTruthy]
  · rw [sync_one_syncKey]
    simp [h1, hsucc]

theorem C6_within_tolerance_witness :
    (sync_device_time 60 ⟨"d1", "ip1"⟩
        ⟨true, Except.ok (some 30), ⟨true, true, true, true⟩,
          Except.ok none, 0⟩
        (check_device_online_status ⟨"d1", "ip1"⟩ true []).store).result =
      some true ∧
    ((sync_one_device 60 ⟨"d1", "ip1"⟩
        ⟨true, ⟨true, Except.ok (some 30), ⟨true, true, true, true⟩,
          Except.ok none, 0⟩⟩ "T" []).2.2.all fun op => !isClockWrite op)
      = true ∧
    storeGet (sync_one_device 60 ⟨"d1", "ip1"⟩
        ⟨true, ⟨true, Except.ok (some 30), ⟨true, true, true, true⟩,
          Except.ok none, 0⟩⟩ "T" []).1 (syncKey ⟨"d1", "ip1"⟩) = some "T" :=
  C6_within_tolerance 60 ⟨"d1", "ip1"⟩
    ⟨true, ⟨true, Except.ok (some 30), ⟨true, true, true, true⟩,
      Except.ok none, 0⟩⟩ "T" [] 30 rfl rfl rfl (by decide)

/-- C7: when the verification re-read after a successful correction shows
a difference still above tolerance, `sync_device_time` returns `False`,
and the operation trace shows exactly one disable/set-time/enable
sequence — no rollback and no additional correction in the same cycle. -/
theorem C7_verification_failure (tol : Int) (d : Device) (se : SyncEnv)
    (st : Store) (dt u : Int)
    (h1 : se.reachable = true)
    (h2 : se.getTime1 = Except.ok (some dt))
    (h3 : |se.systemTime - dt| > tol)
    (h4 : se.setEnv = ⟨true, true, true, true⟩)
    (h5 : se.getTime2 = Except.ok (some u))
    (h6 : |se.systemTime - u| > tol) :
    (sync_device_time tol d se st).result = some false ∧
    (sync_device_time tol d se st).ops =
      [DevOp.probe d.ip, DevOp.readTime d.ip, DevOp.disable d.ip,
       DevOp.setTime d.ip se.systemTime, DevOp.enable d.ip,
       DevOp.readTime d.ip] := by
  simp [sync_device_time, check_online, check_ops, h1, h2, h3, h4, h5,
    not_le.mpr h6, set_device_time]

theorem C7_verification_failure_witness :
    (sync_device_time 60 ⟨"d1", "ip1"⟩
        ⟨true, Except.ok (some 400), ⟨true, true, true, true⟩,
          Except.ok (some 400), 0⟩ []).result = some false ∧
    (sync_device_time 60 ⟨"d1", "ip1"⟩
        ⟨true, Except.ok (some 400), ⟨true, true, true, true⟩,
          Except.ok (some 400), 0⟩ []).ops =
      [DevOp.probe "ip1", DevOp.readTime "ip1", DevOp.disable "ip1",
       DevOp.setTime "ip1" 0, DevOp.enable "ip1", DevOp.readTime "ip1"] :=
  C7_verification_failure 60 ⟨"d1", "ip1"⟩
    ⟨true, Except.ok (some 400), ⟨true, true, true, true⟩,
      Except.ok (some 400), 0⟩ [] 400 400 rfl rfl (by decide) rfl rfl
    (by decide)

/-- C10: with `ENABLE_TIME_SYNC` false, `sync_all_devices` returns with no
store write, no notification and no device operation, whatever the device
list; when it is true, the global `last_time_sync_run` key is written
unconditionally at the end of the cycle. -/
theorem C10_disabled_no_effects (tol : Int)
    (devices : List (Device × CycleEnv)) (now : String) (st : Store) :
    sync_all_devices false tol devices now st = (st, [], []) ∧
    storeGet (sync_all_devices true tol devices now st).1
        "last_time_sync_run" = some now := by
  constructor
  · rfl
  · simp [sync_all_devices, storeGet_storeSet_self]

/-- C4 counterexample: `check` mode DOES mutate persisted state — on a
first-ever reachable probe it writes the device's online-status key (the
check branch reuses `check_device_online_status`, which persists
transitions). -/
theorem C4_check_mode_counterexample :
    (check_mode [(⟨"d1", "10.0.0.2"⟩, true, Except.ok (some 0))] []).1
      ≠ ([] : Store) := by
  decide

/-- C4 amended: `check` mode never writes a device clock (no
disable/set-time/enable operation for any device or outcome), and writes
no key of the status store other than the probed devices' online-status
keys (in particular no `*_last_time_sync` and no `last_time_sync_run`);
it does persist online/offline transitions, exactly as the shared
reachability check does. -/
theorem C4_check_mode_amended
    (devices : List (Device × Bool × Except Unit (Option Int)))
    (st : Store) (k : String)
    (hk : ∀ p ∈ devices, k ≠ statusKey p.1) :
    ((check_mode devices st).2.2.all fun op => !isClockWrite op) = true ∧
    storeGet (check_mode devices st).1 k = storeGet st k := by
  induction devices generalizing st with
  | nil => simp [check_mode]
  | cons p rest ih =>
      have hk1 : k ≠ statusKey p.1 := hk p (List.mem_cons_self p rest)
      have hkr : ∀ q ∈ rest, k ≠ statusKey q.1 :=
        fun q hq => hk q (List.mem_cons_of_mem p hq)
      obtain ⟨ha, hb⟩ := ih (check_mode_device p.1 p.2.1 p.2.2 st).1 hkr
      constructor
      · simp only [check_mode]
        simp [List.all_append, check_mode_device_ops_no_write, ha]
      · simp only [check_mode]
        rw [hb, check_mode_device_store]
        exact check_store_frame p.1 p.2.1 st k hk1

theorem C4_check_mode_amended_witness :
    ((check_mode [(⟨"d1", "10.0.0.2"⟩, true, Except.ok (some 0))]
        []).2.2.all fun op => !isClockWrite op) = true ∧
    storeGet (check_mode [(⟨"d1", "10.0.0.2"⟩, true, Except.ok (some 0))]
        []).1 "last_time_sync_run" = storeGet [] "last_time_sync_run" :=
  C4_check_mode_amended [(⟨"d1", "10.0.0.2"⟩, true, Except.ok (some 0))]
    [] "last_time_sync_run" (by decide)
